import Mathlib

/-!
Shallow embedding of the elastic-package repository fragments:
  - internal/docker/docker.go  (external docker CLI invocations)
  - cmd/stack_swarm.go         (swarm init / overlay network lifecycle)
  - cmd/query.go               (manifest query engine)
  - internal/stack deploy file (Deploy / stackDeploy orchestration)

External process executions are modelled by an oracle value `ExecResult`
describing the outcome of one command run (exit ok, captured stdout, what
the process wrote to stderr, and the Go error text such as an exit-status
message). Each embedded function returns the list of external commands it
issued (its trace) together with its result. Errors are modelled
structurally, mirroring pkg/errors wrapping: `Err.wrap msg cap inner`
stands for errors.Wrap/Wrapf with message `msg`, where `cap = some s`
records that the message interpolated the captured stderr text `s`
(the Go `(stderr=%q)` format verbs), and `cap = none` that it did not.
-/

/-- Outcome oracle for one external command execution. -/
structure ExecResult where
  ok : Bool
  stdout : String
  stderr : String
  errMsg : String
deriving DecidableEq, Repr

/-- Structured model of Go error values built with pkg/errors. -/
inductive Err where
  | simple (msg : String)
  | wrap (msg : String) (cap : Option String) (inner : Err)
deriving DecidableEq, Repr

/-- Whether the error chain interpolated the stderr text `s` somewhere. -/
def Err.includesStderr (s : String) : Err → Bool
  | .simple _ => false
  | .wrap _ cap inner => cap == some s || inner.includesStderr s

/-- External commands and state-changing calls the embedded code can issue. -/
inductive Eff where
  | pullCmd
  | psCmd
  | networkInspectCmd
  | networkConnectCmd
  | networkCreateCmd
  | inspectContainersCmd
  | cpCmd
  | swarmInitCmd
  | joinTokenCmd
  | swarmLeaveCmd
  | stackRmCmd
  | profileCreate
deriving DecidableEq, Repr

/-- Model of bytes.TrimSpace: drop leading and trailing whitespace characters.
(Go trims Unicode space; ASCII whitespace suffices for this model.) -/
def trimSpace (l : List Char) : List Char :=
  ((l.dropWhile Char.isWhitespace).reverse.dropWhile Char.isWhitespace).reverse

/-- Model of bytes.Split on the newline byte: split a character list at each
newline; n separators yield n + 1 pieces, the empty input yields one empty piece. -/
def splitNL : List Char → List (List Char)
  | [] => [[]]
  | c :: rest =>
    if c = '\n' then [] :: splitNL rest
    else
      match splitNL rest with
      | s :: ss => (c :: s) :: ss
      | [] => [[c]]

namespace Docker

/-- docker.go `Pull`: runs `docker pull image`; stderr is only mirrored to the
console in debug mode, never captured into a buffer, and the failure error
wraps the bare run error. -/
def Pull (r : ExecResult) : List Eff × Option Err :=
  ([.pullCmd],
    if r.ok then none
    else some (.wrap "running docker command failed" none (.simple r.errMsg)))

/-- docker.go `ContainerID`: runs `docker ps --filter --format`, captures stderr;
on success splits the space-trimmed output at newlines and demands exactly one
piece. -/
def ContainerID (containerName : String) (r : ExecResult) :
    List Eff × Except Err String :=
  ([.psCmd],
    if r.ok then
      let containerIDs := splitNL (trimSpace r.stdout.data)
      if containerIDs.length ≠ 1 then
        .error (.simple ("expected single " ++ containerName ++ " container"))
      else
        .ok (String.mk (containerIDs.headD []))
    else
      .error (.wrap ("could not find \x22" ++ containerName ++ "\x22 container")
        (some r.stderr) (.simple r.errMsg)))

/-- docker.go `InspectNetwork`: captures stderr; `decodeErr` is the oracle for
the json.Unmarshal outcome on the command output. -/
def InspectNetwork (network : String) (r : ExecResult) (decodeErr : Option String) :
    List Eff × Option Err :=
  ([.networkInspectCmd],
    if r.ok then
      match decodeErr with
      | some e =>
        some (.wrap ("can\x27t unmarshal network inspect for " ++ network)
          (some r.stderr) (.simple e))
      | none => none
    else
      some (.wrap "could not inspect the network" (some r.stderr) (.simple r.errMsg)))

/-- docker.go `ConnectToNetwork`: captures stderr. -/
def ConnectToNetwork (r : ExecResult) : List Eff × Option Err :=
  ([.networkConnectCmd],
    if r.ok then none
    else
      some (.wrap "could not attach container to the stack network"
        (some r.stderr) (.simple r.errMsg)))

/-- docker.go `CreateNetwork`: argument list built as
network create --driver (driver) (args) (name). -/
def createNetworkArgs (name driver : String) (arg : List String) : List String :=
  ["network", "create", "--driver", driver] ++ arg ++ [name]

/-- docker.go `CreateNetwork`: captures stderr into a buffer. -/
def CreateNetwork (r : ExecResult) : List Eff × Option Err :=
  ([.networkCreateCmd],
    if r.ok then none
    else some (.wrap "could not create stack network" (some r.stderr) (.simple r.errMsg)))

/-- docker.go `InspectContainers`: captures stderr; `decodeErr` models the
json.Unmarshal outcome. -/
def InspectContainers (ids : String) (r : ExecResult) (decodeErr : Option String) :
    List Eff × Option Err :=
  ([.inspectContainersCmd],
    if r.ok then
      match decodeErr with
      | some e =>
        some (.wrap ("can\x27t unmarshal container inspect for " ++ ids)
          (some r.stderr) (.simple e))
      | none => none
    else
      some (.wrap "could not inspect containers" (some r.stderr) (.simple r.errMsg)))

/-- docker.go `Copy`: captures stderr. -/
def Copy (r : ExecResult) : List Eff × Option Err :=
  ([.cpCmd],
    if r.ok then none
    else
      some (.wrap "could not copy files from the container"
        (some r.stderr) (.simple r.errMsg)))

/-- docker.go `swarmJoinToken`: runs `docker swarm join-token worker`,
captures stderr, returns raw stdout as the token. -/
def swarmJoinToken (r : ExecResult) : List Eff × Except Err String :=
  ([.joinTokenCmd],
    if r.ok then .ok r.stdout
    else .error (.wrap "unable to get join token" (some r.stderr) (.simple r.errMsg)))

/-- docker.go `SwarmInit`: runs `docker swarm init --advertise-addr ift`
(capturing stderr), then fetches the worker join token. -/
def SwarmInit (rInit rJoin : ExecResult) : List Eff × Except Err String :=
  if rInit.ok then
    let (t, res) := swarmJoinToken rJoin
    ([.swarmInitCmd] ++ t, res)
  else
    ([.swarmInitCmd],
      .error (.wrap "docker swarm init failed" (some rInit.stderr) (.simple rInit.errMsg)))

/-- docker.go `SwarmLeave`: runs `docker swarm leave --force`, captures stderr. -/
def SwarmLeave (r : ExecResult) : List Eff × Option Err :=
  ([.swarmLeaveCmd],
    if r.ok then none
    else some (.wrap "docker swarm leave failed" (some r.stderr) (.simple r.errMsg)))

/-- docker.go `SwarmStackDown`: runs `docker stack rm stackName`; stderr is only
mirrored to the console in debug mode, never captured, and the raw run error
is returned unwrapped. -/
def SwarmStackDown (r : ExecResult) : List Eff × Option Err :=
  ([.stackRmCmd], if r.ok then none else some (.simple r.errMsg))

end Docker

namespace Cmd

/-- Outcome oracles for one run of `stackInit` (cmd/stack_swarm.go). Flag
retrieval errors are not modelled: the flags are registered string flags, so
`GetString` cannot fail for them. -/
structure InitEnv where
  /-- net.InterfaceByName outcome for the given interface name. -/
  ifaceErr : Option String
  /-- profile.CreateProfile outcome. -/
  profileErr : Option String
  /-- the `docker swarm init` run. -/
  rSwarmInit : ExecResult
  /-- the `docker swarm join-token worker` run. -/
  rJoinToken : ExecResult
  /-- net.ParseCIDR outcome for the given subnet string. -/
  cidrErr : Option String
  /-- the `docker network create` run. -/
  rNetworkCreate : ExecResult
  /-- the `docker swarm leave --force` run. -/
  rSwarmLeave : ExecResult
deriving DecidableEq, Repr

/-- cmd/stack_swarm.go `createOverlayNetwork`: parse the subnet as CIDR first;
on parse failure return a wrapped error at once, otherwise invoke
docker.CreateNetwork with `--subnet subnet --attachable`. -/
def createOverlayNetwork (cidrErr : Option String) (rCreate : ExecResult) :
    List Eff × Option Err :=
  match cidrErr with
  | some e => ([], some (.wrap "create overlay network failed" none (.simple e)))
  | none => Docker.CreateNetwork rCreate

/-- cmd/stack_swarm.go `stackInit`: check the interface, read the subnet and
network-name flags, create the swarm profile, run docker.SwarmInit, then
createOverlayNetwork; on overlay failure call docker.SwarmLeave (result
ignored) and wrap the overlay error. -/
def stackInit (env : InitEnv) : List Eff × Option Err :=
  match env.ifaceErr with
  | some e =>
    ([], some (.wrap "cannot create docker swarm without overlay network interface"
      none (.simple e)))
  | none =>
    match env.profileErr with
    | some e => ([.profileCreate], some (.wrap "swarm profile creation has failed"
        none (.simple e)))
    | none =>
      match Docker.SwarmInit env.rSwarmInit env.rJoinToken with
      | (t1, .error e) =>
        ([.profileCreate] ++ t1, some (.wrap "docker swarm creation has failed" none e))
      | (t1, .ok _joinToken) =>
        match createOverlayNetwork env.cidrErr env.rNetworkCreate with
        | (t2, some e) =>
          let (t3, _) := Docker.SwarmLeave env.rSwarmLeave
          ([.profileCreate] ++ t1 ++ t2 ++ t3,
            some (.wrap "cannot initialize swarm" none e))
        | (t2, none) => ([.profileCreate] ++ t1 ++ t2, none)

end Cmd

/-- Go error wrapping on plain message strings: errors.Wrap(err, msg) prints
as msg followed by a colon, a space and the inner error text. -/
def wrapS (msg e : String) : String := msg ++ ": " ++ e

namespace Stack

/-- Steps of the stack Deploy orchestration that change external state. -/
inductive DeployEff where
  | clearDir
  | copyAll
  | composeBuild
  | stackDeployCmd
deriving DecidableEq, Repr

/-- Outcome oracles for one run of stack `Deploy`. -/
structure DeployOracle where
  /-- builder.FindBuildPackagesDirectory: error, or (path, found). -/
  findBuild : Except String (String × Bool)
  /-- locations.NewLocationManager: error, or the stack packages dir path. -/
  locationMgr : Except String String
  /-- files.ClearDir outcome. -/
  clearErr : Option String
  /-- files.CopyAll outcome. -/
  copyErr : Option String
  /-- dockerComposeBuild outcome. -/
  buildErr : Option String
  /-- stackDeploy outcome. -/
  deployErr : Option String
deriving Repr

/-- internal/stack `Deploy`: find the custom build-packages directory, locate
the stack packages directory, clear it unconditionally, copy the custom
contents only when found, build images, then deploy; each failure aborts with
a stage-naming wrap and nothing is rolled back. -/
def Deploy (o : DeployOracle) : List DeployEff × Option String :=
  match o.findBuild with
  | .error e => ([], some (wrapS "finding build packages directory failed" e))
  | .ok (_buildPackagesPath, found) =>
    match o.locationMgr with
    | .error e => ([], some (wrapS "locating stack packages directory failed" e))
    | .ok _stackPackagesDir =>
      match o.clearErr with
      | some e => ([.clearDir], some (wrapS "clearing package contents failed" e))
      | none =>
        let afterCopy : List DeployEff × Option String :=
          if found then
            match o.copyErr with
            | some e => ([.clearDir, .copyAll],
                some (wrapS "copying package contents failed" e))
            | none => ([.clearDir, .copyAll], none)
          else ([.clearDir], none)
        match afterCopy with
        | (tr, some e) => (tr, some e)
        | (tr, none) =>
          match o.buildErr with
          | some e => (tr ++ [.composeBuild],
              some (wrapS "building docker images failed" e))
          | none =>
            match o.deployErr with
            | some e => (tr ++ [.composeBuild, .stackDeployCmd],
                some (wrapS "running docker stack deploy failed" e))
            | none => (tr ++ [.composeBuild, .stackDeployCmd], none)

/-- Modelled from the spec: the stack package environment builder
(`newEnvBuilder` / `withEnvs` / `withEnv` / `build`) is not under src/; per
the spec the merge is simple concatenation in call order, later entries not
overriding earlier ones. -/
def buildEnv (imageRefEnvs : List String) (variantEnv : String)
    (profileEnvs : List String) : List String :=
  imageRefEnvs ++ [variantEnv] ++ profileEnvs

/-- The external `docker` command issued by stackDeploy: its argument list
and the environment handed to the process. -/
structure IssuedCmd where
  args : List String
  env : List String
deriving DecidableEq, Repr

/-- Outcome oracles and collaborator outputs for one run of `stackDeploy`. -/
structure StackDeployOracle where
  /-- install.Configuration outcome. -/
  configErr : Option String
  /-- appConfig.StackImageRefs(options.StackVersion).AsEnv(). -/
  imageRefEnv : List String
  /-- stackVariantAsEnv(options.StackVersion). -/
  variantEnv : String
  /-- options.Profile.ComposeEnvVars(). -/
  profileEnv : List String
  /-- os.Environ(), the inherited process environment. -/
  osEnviron : List String
  /-- options.Profile.FetchPath(profile.SnapshotFile). -/
  composeFile : String
  /-- the `docker stack deploy` run outcome. -/
  runErr : Option String
deriving DecidableEq, Repr

/-- internal/stack `stackDeploy`: build the argument list around the
profile-resolved compose file and the stack name, read the application
configuration, merge the environment sets, and run `docker stack deploy`
with the merged set appended to the inherited environment. -/
def stackDeploy (stackName : String) (o : StackDeployOracle) :
    Option IssuedCmd × Option String :=
  match o.configErr with
  | some e => (none, some (wrapS "can\x27t read application configuration" e))
  | none =>
    let envs := buildEnv o.imageRefEnv o.variantEnv o.profileEnv
    (some ⟨["stack", "deploy", "--compose-file", o.composeFile, stackName],
      o.osEnviron ++ envs⟩,
      o.runErr)

end Stack

namespace Query

/-- A flattened manifest configuration: the ucfg config as the ordered list of
its flattened dot-separated keys paired with their string values. -/
def Manifest := List (String × String)

/-- cfg.FlattenedKeys with PathSep dot. -/
def flattenedKeys (cfg : List (String × String)) : List String :=
  cfg.map Prod.fst

/-- cfg.String(f, 0, PathSep dot): the configured string value at flattened
key `f`, none when the key is absent. -/
def configString (cfg : List (String × String)) (f : String) : Option String :=
  cfg.lookup f

/-- The loop of cmd/query.go `queryPackageManifest` over the flattened keys:
at the first key equal to the queried key, return whether cfg.String
succeeded and its value equals `values[0]`; otherwise keep scanning. -/
def scanKeys (cfg : List (String × String)) (key v0 : String) :
    List String → Bool
  | [] => false
  | f :: rest =>
    if key == f then
      match configString cfg f with
      | some v => v == v0
      | none => false
    else scanKeys cfg key v0 rest

/-- cmd/query.go `queryPackageManifest`: scan the flattened keys, comparing
the value at the queried key against the head of the values list only.
(Go indexes `values[0]`; the required flag makes the list non-empty.) -/
def queryPackageManifest (key : String) (values : List String)
    (cfg : List (String × String)) : Bool :=
  scanKeys cfg key (values.headD "") (flattenedKeys cfg)

/-- One entry of the packages directory listing: its name, whether it is a
directory, and the outcome of loading its manifest file as a flattened
configuration. -/
structure PkgEntry where
  name : String
  isDir : Bool
  load : Except String (List (String × String))
deriving Repr

/-- The package loop of cmd/query.go `queryManifest`: skip non-directories,
record load failures as (name: error) in skipped and continue, collect
matching package names in listing order. Returns (skipped, found). -/
def queryLoop (key : String) (values : List String) :
    List PkgEntry → List String × List String
  | [] => ([], [])
  | p :: rest =>
    if p.isDir then
      match p.load with
      | .error e =>
        let (s, f) := queryLoop key values rest
        ((p.name ++ ": " ++ e) :: s, f)
      | .ok cfg =>
        let (s, f) := queryLoop key values rest
        (s, if queryPackageManifest key values cfg then p.name :: f else f)
    else queryLoop key values rest

/-- cmd/query.go `queryManifest` after flag parsing: run queryCheck, read the
packages directory, run the package loop, print the skipped and found lists,
and return nil whether or not anything matched. Returns
(skipped, found, returned error). -/
def queryManifest (checkErr : Option String) (key : String) (values : List String)
    (readDir : Except String (List PkgEntry)) :
    List String × List String × Option String :=
  match checkErr with
  | some e => ([], [], some e)
  | none =>
    match readDir with
    | .error e => ([], [], some (wrapS "cannot find package directories" e))
    | .ok pkgs =>
      let (skipped, found) := queryLoop key values pkgs
      (skipped, found, none)

end Query

/-! Helper definitions and lemmas shared by the claim theorems. -/

/-- Project the error of an Except result, if any. -/
def errOfExcept {α : Type} : Except Err α → Option Err
  | .error e => some e
  | .ok _ => none

theorem splitNL_length_pos : ∀ l : List Char, 0 < (splitNL l).length
  | [] => by simp [splitNL]
  | c :: rest => by
    by_cases h : c = '\n'
    · simp [splitNL, h]
    · simp only [splitNL, if_neg h]
      cases hs : splitNL rest with
      | nil => simp
      | cons s ss => simp

/-- C5: any subnet string that fails CIDR parsing makes createOverlayNetwork
return the wrapped parse error with an empty command trace: the network-create
invocation is unreachable on the parse-failure branch. -/
theorem createOverlayNetwork_fail_fast (e : String) (rCreate : ExecResult) :
    Cmd.createOverlayNetwork (some e) rCreate
      = ([], some (.wrap "create overlay network failed" none (.simple e))) := rfl

/-- C1: when the interface check, profile creation and swarm init all succeed
and overlay network creation then fails, stackInit issues the compensating
swarm-leave command as the last element of its trace before returning, and the
returned error wraps the overlay network creation failure. -/
theorem stackInit_rollback (env : Cmd.InitEnv)
    (hIface : env.ifaceErr = none) (hProf : env.profileErr = none)
    (hInit : env.rSwarmInit.ok = true) (hJoin : env.rJoinToken.ok = true)
    (e : Err)
    (hNet : (Cmd.createOverlayNetwork env.cidrErr env.rNetworkCreate).2 = some e) :
    Cmd.stackInit env
      = ([.profileCreate, .swarmInitCmd, .joinTokenCmd]
          ++ (Cmd.createOverlayNetwork env.cidrErr env.rNetworkCreate).1
          ++ [Eff.swarmLeaveCmd],
        some (.wrap "cannot initialize swarm" none e)) := by
  cases hco : Cmd.createOverlayNetwork env.cidrErr env.rNetworkCreate with
  | mk t2 res =>
    rw [hco] at hNet
    simp only at hNet
    subst hNet
    simp [Cmd.stackInit, hIface, hProf, Docker.SwarmInit, Docker.swarmJoinToken,
      hInit, hJoin, hco, Docker.SwarmLeave]

def okRun : ExecResult := ⟨true, "", "", ""⟩

def envC1 : Cmd.InitEnv :=
  { ifaceErr := none, profileErr := none, rSwarmInit := okRun, rJoinToken := okRun,
    cidrErr := some "invalid CIDR address: 300.0.0.0/8", rNetworkCreate := okRun,
    rSwarmLeave := okRun }

theorem stackInit_rollback_witness :
    envC1.ifaceErr = none ∧ envC1.profileErr = none
    ∧ envC1.rSwarmInit.ok = true ∧ envC1.rJoinToken.ok = true
    ∧ (Cmd.createOverlayNetwork envC1.cidrErr envC1.rNetworkCreate).2
        = some (.wrap "create overlay network failed" none
            (.simple "invalid CIDR address: 300.0.0.0/8"))
    ∧ Cmd.stackInit envC1
        = ([.profileCreate, .swarmInitCmd, .joinTokenCmd, .swarmLeaveCmd],
          some (.wrap "cannot initialize swarm" none
            (.wrap "create overlay network failed" none
              (.simple "invalid CIDR address: 300.0.0.0/8")))) :=
  ⟨rfl, rfl, rfl, rfl, rfl,
    stackInit_rollback envC1 rfl rfl rfl rfl _ rfl⟩

def envC2 : Cmd.InitEnv :=
  { ifaceErr := none, profileErr := none, rSwarmInit := okRun, rJoinToken := okRun,
    cidrErr := some "invalid CIDR address: foo", rNetworkCreate := okRun,
    rSwarmLeave := okRun }

/-- C2 counterexample: a run whose subnet fails CIDR parsing in which the
swarm-init command is nevertheless issued — the subnet is validated only
inside createOverlayNetwork, after profile creation and swarm init — so it is
false that no swarm mutation is issued before the subnet is validated. -/
theorem stackInit_validates_late_cex :
    envC2.cidrErr.isSome = true
    ∧ ¬ (Eff.swarmInitCmd ∉ (Cmd.stackInit envC2).1)
    ∧ Eff.profileCreate ∈ (Cmd.stackInit envC2).1
    ∧ (Cmd.stackInit envC2).2 ≠ none := by decide

/-- C2 amended: for every run whose subnet string fails CIDR parsing,
stackInit returns an error and the network-create command is never issued;
however the validation happens only inside createOverlayNetwork, so whenever
the earlier steps succeed the swarm-init command has already been issued
(followed by the compensating swarm leave). -/
theorem stackInit_bad_cidr_no_network_create (env : Cmd.InitEnv) (e : String)
    (h : env.cidrErr = some e) :
    Eff.networkCreateCmd ∉ (Cmd.stackInit env).1
    ∧ (Cmd.stackInit env).2 ≠ none
    ∧ (env.ifaceErr = none → env.profileErr = none → env.rSwarmInit.ok = true →
        Eff.swarmInitCmd ∈ (Cmd.stackInit env).1) := by
  cases hIf : env.ifaceErr with
  | some ei => simp [Cmd.stackInit, hIf]
  | none =>
    cases hPr : env.profileErr with
    | some ep => simp [Cmd.stackInit, hIf, hPr]
    | none =>
      cases hI : env.rSwarmInit.ok with
      | false =>
        simp [Cmd.stackInit, hIf, hPr, Docker.SwarmInit, hI]
      | true =>
        cases hJ : env.rJoinToken.ok with
        | false =>
          simp [Cmd.stackInit, hIf, hPr, Docker.SwarmInit, Docker.swarmJoinToken,
            hI, hJ]
        | true =>
          simp [Cmd.stackInit, hIf, hPr, Docker.SwarmInit, Docker.swarmJoinToken,
            hI, hJ, Cmd.createOverlayNetwork, h, Docker.SwarmLeave]

theorem stackInit_bad_cidr_witness :
    envC2.cidrErr = some "invalid CIDR address: foo"
    ∧ Eff.networkCreateCmd ∉ (Cmd.stackInit envC2).1
    ∧ (Cmd.stackInit envC2).2 ≠ none :=
  ⟨rfl,
    (stackInit_bad_cidr_no_network_create envC2 "invalid CIDR address: foo" rfl).1,
    (stackInit_bad_cidr_no_network_create envC2 "invalid CIDR address: foo" rfl).2.1⟩

/-- C10: when the listing command succeeds, ContainerID errors exactly when
the trimmed output splits into two or more newline-separated pieces; empty
output trims and splits to a single empty piece, so the result is the empty
string with no error. -/
theorem ContainerID_single_line (name : String) (r : ExecResult)
    (h : r.ok = true) :
    ((errOfExcept (Docker.ContainerID name r).2).isSome = true
      ↔ 2 ≤ (splitNL (trimSpace r.stdout.data)).length)
    ∧ (r.stdout = "" → (Docker.ContainerID name r).2 = .ok "") := by
  constructor
  · simp only [Docker.ContainerID, h, if_true]
    by_cases hl : (splitNL (trimSpace r.stdout.data)).length = 1
    · rw [if_neg (not_not_intro hl)]
      simp [errOfExcept, hl]
    · rw [if_pos hl]
      have hp := splitNL_length_pos (trimSpace r.stdout.data)
      simp [errOfExcept]
      omega
  · intro h0
    simp only [Docker.ContainerID, h, if_true, h0]
    rfl

def emptyPsRun : ExecResult := ⟨true, "", "", ""⟩

theorem ContainerID_single_line_witness :
    emptyPsRun.ok = true
    ∧ (Docker.ContainerID "elastic-agent" emptyPsRun).2 = .ok "" :=
  ⟨rfl, (ContainerID_single_line "elastic-agent" emptyPsRun rfl).2 rfl⟩

def pullFailRun : ExecResult := ⟨false, "", "boom", "exit status 1"⟩

/-- C4 counterexample: docker.Pull does not capture stderr into a buffer — it
only mirrors it to the console in debug mode — so on failure its returned
error does not include the captured stderr text, refuting the claim for every
external invocation in the docker package. -/
theorem docker_pull_stderr_cex :
    (Docker.Pull pullFailRun).2.map (Err.includesStderr pullFailRun.stderr)
      = some false
    ∧ (Docker.SwarmStackDown pullFailRun).2.map
        (Err.includesStderr pullFailRun.stderr) = some false := by decide

/-- C4 amended: every external invocation in the docker package except Pull
and SwarmStackDown captures stderr into a buffer, and on failure (command
failure, and for the inspect functions also unmarshal failure) the returned
error includes the captured stderr text; Pull and SwarmStackDown only mirror
stderr to the console in debug mode. -/
theorem docker_stderr_captured (name net ids : String) (r : ExecResult)
    (d : Option String) (h : r.ok = false) :
    (errOfExcept (Docker.ContainerID name r).2).map (Err.includesStderr r.stderr)
        = some true
    ∧ (Docker.InspectNetwork net r d).2.map (Err.includesStderr r.stderr) = some true
    ∧ (Docker.ConnectToNetwork r).2.map (Err.includesStderr r.stderr) = some true
    ∧ (Docker.CreateNetwork r).2.map (Err.includesStderr r.stderr) = some true
    ∧ (Docker.InspectContainers ids r d).2.map (Err.includesStderr r.stderr)
        = some true
    ∧ (Docker.Copy r).2.map (Err.includesStderr r.stderr) = some true
    ∧ (∀ rJoin, (errOfExcept (Docker.SwarmInit r rJoin).2).map
        (Err.includesStderr r.stderr) = some true)
    ∧ (errOfExcept (Docker.swarmJoinToken r).2).map (Err.includesStderr r.stderr)
        = some true
    ∧ (Docker.SwarmLeave r).2.map (Err.includesStderr r.stderr) = some true
    ∧ (∀ rIn de, rIn.ok = true →
        (Docker.InspectNetwork net rIn (some de)).2.map
          (Err.includesStderr rIn.stderr) = some true)
    ∧ (∀ rIn de, rIn.ok = true →
        (Docker.InspectContainers ids rIn (some de)).2.map
          (Err.includesStderr rIn.stderr) = some true)
    ∧ (∀ rInit, rInit.ok = true →
        (errOfExcept (Docker.SwarmInit rInit r).2).map
          (Err.includesStderr r.stderr) = some true) := by
  refine ⟨?_, ?_, ?_, ?_, ?_, ?_, ?_, ?_, ?_, ?_, ?_, ?_⟩
  · simp [Docker.ContainerID, h, errOfExcept, Err.includesStderr]
  · simp [Docker.InspectNetwork, h, Err.includesStderr]
  · simp [Docker.ConnectToNetwork, h, Err.includesStderr]
  · simp [Docker.CreateNetwork, h, Err.includesStderr]
  · simp [Docker.InspectContainers, h, Err.includesStderr]
  · simp [Docker.Copy, h, Err.includesStderr]
  · intro rJoin
    simp [Docker.SwarmInit, h, errOfExcept, Err.includesStderr]
  · simp [Docker.swarmJoinToken, h, errOfExcept, Err.includesStderr]
  · simp [Docker.SwarmLeave, h, Err.includesStderr]
  · intro rIn de hIn
    simp [Docker.InspectNetwork, hIn, Err.includesStderr]
  · intro rIn de hIn
    simp [Docker.InspectContainers, hIn, Err.includesStderr]
  · intro rInit hInit
    simp [Docker.SwarmInit, hInit, Docker.swarmJoinToken, h, errOfExcept,
      Err.includesStderr]

theorem docker_stderr_captured_witness :
    pullFailRun.ok = false
    ∧ (errOfExcept (Docker.ContainerID "es" pullFailRun).2).map
        (Err.includesStderr pullFailRun.stderr) = some true :=
  ⟨rfl, (docker_stderr_captured "es" "elastic" "c1" pullFailRun none rfl).1⟩

theorem scanKeys_eq_true_iff (cfg : List (String × String)) (key v0 : String) :
    ∀ keys : List String,
      Query.scanKeys cfg key v0 keys = true
        ↔ (key ∈ keys ∧ Query.configString cfg key = some v0)
  | [] => by simp [Query.scanKeys]
  | f :: rest => by
    by_cases h : key = f
    · subst h
      simp only [Query.scanKeys, beq_self_eq_true, if_true, List.mem_cons,
        true_or, true_and]
      cases hc : Query.configString cfg key with
      | none => simp
      | some v => simp [beq_iff_eq]
    · have hb : (key == f) = false := beq_eq_false_iff_ne.mpr h
      simp only [Query.scanKeys, hb, Bool.false_eq_true, if_false,
        List.mem_cons]
      rw [scanKeys_eq_true_iff cfg key v0 rest]
      simp [h]

/-- C3: queryPackageManifest returns true exactly when the flattened key set
contains the queried key and the configured string value there equals the
first element of the (non-empty) values list; elements beyond index 0 are
never compared; and on packages a ↦ (foo.bar, x) and b ↦ (foo.bar, y) with
query key foo.bar and values [x], the matched list is exactly [a] and the
skipped list is empty. -/
theorem queryPackageManifest_matches (key : String) (values : List String)
    (cfg : List (String × String)) (v : String) (rest : List String)
    (hv : values = v :: rest) :
    (Query.queryPackageManifest key values cfg = true
      ↔ (key ∈ Query.flattenedKeys cfg ∧ Query.configString cfg key = some v))
    ∧ (∀ rest2, Query.queryPackageManifest key (v :: rest2) cfg
        = Query.queryPackageManifest key values cfg)
    ∧ Query.queryLoop "foo.bar" ["x"]
        [⟨"a", true, .ok [("foo.bar", "x")]⟩, ⟨"b", true, .ok [("foo.bar", "y")]⟩]
        = ([], ["a"]) := by
  subst hv
  refine ⟨?_, fun rest2 => rfl, by decide⟩
  simpa [Query.queryPackageManifest] using
    scanKeys_eq_true_iff cfg key v (Query.flattenedKeys cfg)

theorem queryPackageManifest_matches_witness :
    (["x"] : List String) = "x" :: []
    ∧ (Query.queryPackageManifest "foo.bar" ["x"] [("foo.bar", "x")] = true
      ↔ ("foo.bar" ∈ Query.flattenedKeys [("foo.bar", "x")]
          ∧ Query.configString [("foo.bar", "x")] "foo.bar" = some "x")) :=
  ⟨rfl, (queryPackageManifest_matches "foo.bar" ["x"] [("foo.bar", "x")]
    "x" [] rfl).1⟩

theorem queryLoop_append (key : String) (values : List String) :
    ∀ xs ys : List Query.PkgEntry,
      Query.queryLoop key values (xs ++ ys)
        = ((Query.queryLoop key values xs).1 ++ (Query.queryLoop key values ys).1,
           (Query.queryLoop key values xs).2 ++ (Query.queryLoop key values ys).2)
  | [], ys => by simp [Query.queryLoop]
  | p :: xs, ys => by
    cases hd : p.isDir with
    | false =>
      simp only [List.cons_append, Query.queryLoop, hd, Bool.false_eq_true,
        if_false]
      exact queryLoop_append key values xs ys
    | true =>
      cases hl : p.load with
      | error e =>
        simp only [List.cons_append, Query.queryLoop, hd, if_true, hl,
          List.append_eq]
        rw [queryLoop_append key values xs ys]
      | ok cfg =>
        simp only [List.cons_append, Query.queryLoop, hd, if_true, hl,
          List.append_eq]
        rw [queryLoop_append key values xs ys]
        by_cases hq : Query.queryPackageManifest key values cfg = true
        · simp [hq]
        · simp [hq]

/-- C6: a manifest load failure for one package is non-fatal: it is recorded
in skipped with a non-empty reason, iteration continues, the matched results
of the sibling packages are unchanged, and the overall query still returns a
nil error. -/
theorem queryManifest_fail_soft (key : String) (values : List String)
    (pre post : List Query.PkgEntry) (name e : String) :
    Query.queryLoop key values (pre ++ ⟨name, true, .error e⟩ :: post)
      = ((Query.queryLoop key values pre).1
          ++ (name ++ ": " ++ e) :: (Query.queryLoop key values post).1,
         (Query.queryLoop key values pre).2 ++ (Query.queryLoop key values post).2)
    ∧ (name ++ ": " ++ e) ≠ ""
    ∧ (Query.queryManifest none key values
        (.ok (pre ++ ⟨name, true, .error e⟩ :: post))).2.2 = none := by
  refine ⟨?_, ?_, ?_⟩
  · rw [queryLoop_append key values pre (⟨name, true, .error e⟩ :: post)]
    simp [Query.queryLoop]
  · intro hcontra
    have hlen := congrArg String.length hcontra
    simp [String.length_append] at hlen
    exact absurd hlen.1.2 (by decide)
  · simp [Query.queryManifest]

/-- C9: when every package either fails to load or does not match, the query
finds nothing and queryManifest still returns a nil error — no match across
all packages is a normal, non-error outcome. -/
theorem queryManifest_no_match_is_ok (key : String) (values : List String)
    (pkgs : List Query.PkgEntry)
    (h : ∀ p ∈ pkgs, p.isDir = true → ∀ cfg, p.load = .ok cfg →
      Query.queryPackageManifest key values cfg = false) :
    (Query.queryManifest none key values (.ok pkgs)).2.1 = []
    ∧ (Query.queryManifest none key values (.ok pkgs)).2.2 = none := by
  refine ⟨?_, by simp [Query.queryManifest]⟩
  simp only [Query.queryManifest]
  induction pkgs with
  | nil => simp [Query.queryLoop]
  | cons p rest ih =>
    have hrest : ∀ p2 ∈ rest, p2.isDir = true → ∀ cfg, p2.load = .ok cfg →
        Query.queryPackageManifest key values cfg = false :=
      fun p2 hp2 => h p2 (List.mem_cons_of_mem p hp2)
    cases hd : p.isDir with
    | false => simpa [Query.queryLoop, hd] using ih hrest
    | true =>
      cases hl : p.load with
      | error e => simpa [Query.queryLoop, hd, hl] using ih hrest
      | ok cfg =>
        have hq := h p (List.mem_cons_self p rest) hd cfg hl
        simpa [Query.queryLoop, hd, hl, hq] using ih hrest

def pkgsC9 : List Query.PkgEntry :=
  [⟨"apache", true, .error "yaml parse failure"⟩,
   ⟨"nginx", true, .ok [("format_version", "1.0.0")]⟩]

theorem queryManifest_no_match_is_ok_witness :
    (Query.queryManifest none "format_version" ["2.0.0"] (.ok pkgsC9)).2.1 = []
    ∧ (Query.queryManifest none "format_version" ["2.0.0"] (.ok pkgsC9)).2.2
        = none :=
  queryManifest_no_match_is_ok "format_version" ["2.0.0"] pkgsC9 (by
    intro p hp hd cfg hcfg
    simp only [pkgsC9, List.mem_cons, List.mem_singleton] at hp
    rcases hp with h1 | h2 | hfalse
    · rw [h1] at hcfg
      exact absurd hcfg (by simp)
    · rw [h2] at hcfg
      simp only at hcfg
      injection hcfg with hcfg2
      subst hcfg2
      decide
    · exact absurd hfalse (List.not_mem_nil p))

/-- C7: when the application configuration loads, the command stackDeploy
issues carries the inherited environment with the merged set appended to it
(not replacing it), the merged set being exactly the version-derived
image-reference variables, the version-derived variant variable, and the
profile compose variables, in that order with nothing else added. -/
theorem stackDeploy_env_merge (stackName : String) (o : Stack.StackDeployOracle)
    (h : o.configErr = none) :
    (Stack.stackDeploy stackName o).1
      = some ⟨["stack", "deploy", "--compose-file", o.composeFile, stackName],
          o.osEnviron ++ (o.imageRefEnv ++ [o.variantEnv] ++ o.profileEnv)⟩
    ∧ (Stack.stackDeploy stackName o).2 = o.runErr := by
  simp [Stack.stackDeploy, Stack.buildEnv, h]

def oracleC7 : Stack.StackDeployOracle :=
  { configErr := none, imageRefEnv := ["A=1"], variantEnv := "B=2",
    profileEnv := ["C=3"], osEnviron := ["PATH=/bin"],
    composeFile := "/profile/snapshot.yml", runErr := none }

theorem stackDeploy_env_merge_witness :
    oracleC7.configErr = none
    ∧ (Stack.stackDeploy "elastic-package-stack" oracleC7).1
        = some ⟨["stack", "deploy", "--compose-file", "/profile/snapshot.yml",
            "elastic-package-stack"],
            ["PATH=/bin", "A=1", "B=2", "C=3"]⟩ :=
  ⟨rfl, (stackDeploy_env_merge "elastic-package-stack" oracleC7 rfl).1⟩

/-- C8: each run of Deploy clears the destination packages directory whenever
the find and locate stages succeed (in particular when no custom
build-packages directory exists), copies the custom contents only when one
was found, and on failure of any step aborts at that step with a
stage-identifying wrapped error, issuing no further or compensating steps. -/
theorem Deploy_stage_behavior (o : Stack.DeployOracle) :
    (∀ e, o.findBuild = .error e →
      Stack.Deploy o = ([], some (wrapS "finding build packages directory failed" e)))
    ∧ (∀ p found e, o.findBuild = .ok (p, found) → o.locationMgr = .error e →
      Stack.Deploy o = ([], some (wrapS "locating stack packages directory failed" e)))
    ∧ (∀ p found dir, o.findBuild = .ok (p, found) → o.locationMgr = .ok dir →
      Stack.DeployEff.clearDir ∈ (Stack.Deploy o).1)
    ∧ (∀ p dir, o.findBuild = .ok (p, false) → o.locationMgr = .ok dir →
      Stack.DeployEff.copyAll ∉ (Stack.Deploy o).1)
    ∧ (∀ p found dir e, o.findBuild = .ok (p, found) → o.locationMgr = .ok dir →
      o.clearErr = some e →
      Stack.Deploy o = ([.clearDir], some (wrapS "clearing package contents failed" e)))
    ∧ (∀ p dir e, o.findBuild = .ok (p, true) → o.locationMgr = .ok dir →
      o.clearErr = none → o.copyErr = some e →
      Stack.Deploy o
        = ([.clearDir, .copyAll], some (wrapS "copying package contents failed" e)))
    ∧ (∀ p dir e, o.findBuild = .ok (p, true) → o.locationMgr = .ok dir →
      o.clearErr = none → o.copyErr = none → o.buildErr = some e →
      Stack.Deploy o = ([.clearDir, .copyAll, .composeBuild],
          some (wrapS "building docker images failed" e)))
    ∧ (∀ p dir e, o.findBuild = .ok (p, false) → o.locationMgr = .ok dir →
      o.clearErr = none → o.buildErr = some e →
      Stack.Deploy o = ([.clearDir, .composeBuild],
          some (wrapS "building docker images failed" e)))
    ∧ (∀ p dir e, o.findBuild = .ok (p, true) → o.locationMgr = .ok dir →
      o.clearErr = none → o.copyErr = none → o.buildErr = none →
      o.deployErr = some e →
      Stack.Deploy o = ([.clearDir, .copyAll, .composeBuild, .stackDeployCmd],
          some (wrapS "running docker stack deploy failed" e))) := by
  refine ⟨?_, ?_, ?_, ?_, ?_, ?_, ?_, ?_, ?_⟩
  · intro e h1
    simp [Stack.Deploy, h1]
  · intro p found e h1 h2
    simp [Stack.Deploy, h1, h2]
  · intro p found dir h1 h2
    cases hc : o.clearErr with
    | some e => simp [Stack.Deploy, h1, h2, hc]
    | none =>
      cases found <;>
        cases hcp : o.copyErr <;>
          cases hb : o.buildErr <;>
            cases hdp : o.deployErr <;>
              simp [Stack.Deploy, h1, h2, hc, hcp, hb, hdp]
  · intro p dir h1 h2
    cases hc : o.clearErr with
    | some e => simp [Stack.Deploy, h1, h2, hc]
    | none =>
      cases hb : o.buildErr <;>
        cases hdp : o.deployErr <;>
          simp [Stack.Deploy, h1, h2, hc, hb, hdp]
  · intro p found dir e h1 h2 h3
    simp [Stack.Deploy, h1, h2, h3]
  · intro p dir e h1 h2 h3 h4
    simp [Stack.Deploy, h1, h2, h3, h4]
  · intro p dir e h1 h2 h3 h4 h5
    simp [Stack.Deploy, h1, h2, h3, h4, h5]
  · intro p dir e h1 h2 h3 h4
    simp [Stack.Deploy, h1, h2, h3, h4]
  · intro p dir e h1 h2 h3 h4 h5 h6
    simp [Stack.Deploy, h1, h2, h3, h4, h5, h6]

def oracleC8 : Stack.DeployOracle :=
  { findBuild := .ok ("/home/dev/build/packages", false), locationMgr := .ok "/root/.elastic-package/stack/development",
    clearErr := none, copyErr := none, buildErr := none, deployErr := none }

theorem Deploy_stage_behavior_witness :
    oracleC8.findBuild = .ok ("/home/dev/build/packages", false)
    ∧ Stack.DeployEff.clearDir ∈ (Stack.Deploy oracleC8).1
    ∧ Stack.DeployEff.copyAll ∉ (Stack.Deploy oracleC8).1 :=
  ⟨rfl,
    (Deploy_stage_behavior oracleC8).2.2.1 "/home/dev/build/packages" false
      "/root/.elastic-package/stack/development" rfl rfl,
    (Deploy_stage_behavior oracleC8).2.2.2.1 "/home/dev/build/packages"
      "/root/.elastic-package/stack/development" rfl rfl⟩
